import Mathlib

/-!
# AC button drivers

A shallow embedding of the two variants of the `ac_button` kernel module:

* `src/src/ac_button_main.c`: samples every exported pin from the zero-crossing
  callback `ac_button_zc_handler` (namespace `ZC`);
* `src/drivers/ac_button_main.c`: latches a rising-edge interrupt per pin and
  commits it from a 50 ms timer callback (namespace `Poller`).

The driver state is the static `button_table`.  The Linux services the driver
calls (gpiolib, the irq core, the device model, sysfs) are not part of the
repository; they are represented by the record `Kernel`, which keeps who holds
every pin and irq line, which devices are registered, and the list of the
effectful calls made so far.  Outcomes the driver cannot predict (an injected
errno, the handle returned by `device_create`, the irq number of a pin) are
passed to each call in a `Faults` record.

`ARCH_NR_GPIOS` comes from a kernel header and is a parameter throughout.
-/

namespace AcButton

/-! ## Kernel services -/

/-- Handle standing for a non-NULL `struct device *`. -/
abbrev Dev := Nat

/-- Value of `EINVAL` in `errno-base.h`. -/
def EINVAL : Int := 22

/-- Value of `ENODEV` in `errno-base.h`. -/
def ENODEV : Int := 19

/-- Value of `EBUSY` in `errno-base.h`. -/
def EBUSY : Int := 16

/-- Value of `ERANGE` in `errno-base.h`. -/
def ERANGE : Int := 34

/-- Who holds a pin or an irq line: this module (label `"ac_button"`, dev_id
`&ac_button_class`) or somebody else. -/
inductive Label
  | ac_button
  | other
  deriving DecidableEq, Repr

/-- Effectful kernel calls made by the driver.  Acquisitions are recorded only
when they succeed. -/
inductive Call
  | gpio_request (gpio : Int)
  | gpio_free (gpio : Int)
  | request_irq (irq : Int)
  | free_irq (irq : Int)
  | device_create (dev : Dev)
  | put_device (dev : Dev)
  | device_unregister (dev : Dev)
  | sysfs_notify (gpio : Nat)
  | hrtimer_start
  deriving DecidableEq, Repr

/-- The part of the kernel the driver talks to. -/
structure Kernel where
  /-- Holder of each pin (`FLAG_REQUESTED` and label in gpiolib), `none` when free. -/
  requested : Nat → Option Label
  /-- Holder of each irq line, `none` when no action is installed. -/
  irq_action : Int → Option Label
  /-- Devices currently registered in class `ac_button`. -/
  devices : List Dev
  /-- Effectful calls made so far, oldest first. -/
  calls : List Call

/-- Outcomes of the kernel calls of one `export_store` that the driver does not
control.  An errno field `e` makes the call return `-e`; `0` injects nothing. -/
structure Faults where
  gpio_request : Nat
  gpio_direction_input : Nat
  /-- Result of `gpio_to_irq`: the irq number, or a negative errno. -/
  gpio_to_irq : Int
  request_irq : Nat
  /-- Result of `device_create`: `none` is NULL. -/
  device_create : Option Dev
  sysfs_create_group : Nat

/-- The text written to a class attribute, as `kstrtol(buf, 0, &gpio)` sees it. -/
inductive Buf
  | number (gpio : Int)
  | invalid
  | out_of_range
  deriving DecidableEq, Repr

/-- The function `kstrtol(buf, 0, &gpio)`: status and, on success, the number stored. -/
def kstrtol : Buf → Int × Option Int
  | .number gpio => (0, some gpio)
  | .invalid => (-EINVAL, none)
  | .out_of_range => (-ERANGE, none)

section
variable (ARCH_NR_GPIOS : Nat)

/-- The inline `gpio_is_valid(number)`: `number >= 0 && number < ARCH_NR_GPIOS`. -/
def gpio_is_valid (number : Int) : Bool :=
  decide (0 ≤ number) && decide (number < (ARCH_NR_GPIOS : Int))

/-- The call `gpio_request(gpio, "ac_button")`: `-EINVAL` for a number that is
no pin, the injected errno if any, `-EBUSY` for a pin that is held, otherwise the
pin becomes held by this module. -/
def Kernel.gpio_request (k : Kernel) (fault : Nat) (gpio : Int) : Int × Kernel :=
  if gpio_is_valid ARCH_NR_GPIOS gpio = false then (-EINVAL, k)
  else if fault ≠ 0 then (-(fault : Int), k)
  else match k.requested gpio.toNat with
    | some _ => (-EBUSY, k)
    | none =>
      (0, { k with requested := Function.update k.requested gpio.toNat (some Label.ac_button),
                   calls := k.calls ++ [Call.gpio_request gpio] })

/-- The call `gpio_free(gpio)`: gpiolib clears `FLAG_REQUESTED` of a valid pin
whoever held it. -/
def Kernel.gpio_free (k : Kernel) (gpio : Int) : Kernel :=
  { k with requested := if gpio_is_valid ARCH_NR_GPIOS gpio = true
                        then Function.update k.requested gpio.toNat none
                        else k.requested,
           calls := k.calls ++ [Call.gpio_free gpio] }

end

/-- The call `gpio_direction_input(gpio)` on a pin held by the caller. -/
def Kernel.gpio_direction_input (k : Kernel) (fault : Nat) (_gpio : Int) : Int × Kernel :=
  (-(fault : Int), k)

/-- The call `request_irq(irq, handler, flags, name, &ac_button_class)` without
`IRQF_SHARED`: the injected errno if any, `-EBUSY` when the line has an action. -/
def Kernel.request_irq (k : Kernel) (fault : Nat) (irq : Int) : Int × Kernel :=
  if fault ≠ 0 then (-(fault : Int), k)
  else match k.irq_action irq with
    | some _ => (-EBUSY, k)
    | none =>
      (0, { k with irq_action := Function.update k.irq_action irq (some Label.ac_button),
                   calls := k.calls ++ [Call.request_irq irq] })

/-- The call `free_irq(irq, &ac_button_class)`: removes the action installed
with this dev_id, if there is one. -/
def Kernel.free_irq (k : Kernel) (irq : Int) : Kernel :=
  { k with irq_action := if k.irq_action irq = some Label.ac_button
                         then Function.update k.irq_action irq none
                         else k.irq_action,
           calls := k.calls ++ [Call.free_irq irq] }

/-- The call `device_create(&ac_button_class, ...)`, with the result chosen by
the kernel. -/
def Kernel.device_create (k : Kernel) (result : Option Dev) : Option Dev × Kernel :=
  match result with
  | some dev => (some dev, { k with devices := dev :: k.devices,
                                    calls := k.calls ++ [Call.device_create dev] })
  | none => (none, k)

/-- The call `sysfs_create_group(&dev->kobj, &ac_button_dev_attr_group)`. -/
def Kernel.sysfs_create_group (k : Kernel) (fault : Nat) (_dev : Dev) : Int × Kernel :=
  (-(fault : Int), k)

/-- The call `device_unregister(dev)`. -/
def Kernel.device_unregister (k : Kernel) (dev : Dev) : Kernel :=
  { k with devices := k.devices.erase dev,
           calls := k.calls ++ [Call.device_unregister dev] }

/-- The call `put_device(dev)`. -/
def Kernel.put_device (k : Kernel) (dev : Dev) : Kernel :=
  { k with calls := k.calls ++ [Call.put_device dev] }

/-- The call `sysfs_notify(&desc->dev->kobj, NULL, "value")` for the descriptor
of pin `gpio`. -/
def Kernel.sysfs_notify (k : Kernel) (gpio : Nat) : Kernel :=
  { k with calls := k.calls ++ [Call.sysfs_notify gpio] }

/-- The call `hrtimer_start(&hr_timer, ktime_set(0, 50000000), HRTIMER_MODE_REL)`. -/
def Kernel.hrtimer_start (k : Kernel) : Kernel :=
  { k with calls := k.calls ++ [Call.hrtimer_start] }

/-- Number of value-changed notifications issued so far for pin `gpio`. -/
def Kernel.notify_count (k : Kernel) (gpio : Nat) : Nat :=
  k.calls.count (Call.sysfs_notify gpio)

/-- A kernel in which nothing is held and nothing was called. -/
def Kernel.idle : Kernel :=
  { requested := fun _ => none, irq_action := fun _ => none, devices := [], calls := [] }

/-- No injected fault; `device_create` returns `dev` and `gpio_to_irq` returns `irq`. -/
def Faults.none (dev : Dev) (irq : Int) : Faults :=
  { gpio_request := 0, gpio_direction_input := 0, gpio_to_irq := irq, request_irq := 0,
    device_create := some dev, sysfs_create_group := 0 }

/-- Value of a C `int` after an arithmetic step (two's complement, 32 bits). -/
def int_wrap (x : Int) : Int := (x + 2 ^ 31) % 2 ^ 32 - 2 ^ 31

/-! ## Zero-crossing variant (`src/src/ac_button_main.c`) -/

namespace ZC

/-- The C `struct button_desc`; `flags` holds the one bit used, `FLAG_ACBUTTON`. -/
structure button_desc where
  dev : Option Dev
  zero_count : Int
  value : Int
  flags : Bool
  deriving DecidableEq, Repr

/-- Driver state: the static `button_table` and the kernel around it. -/
structure State where
  button_table : Nat → button_desc
  kernel : Kernel

/-- Zero-initialised static storage, before any call. -/
def State.init : State :=
  { button_table := fun _ => { dev := none, zero_count := 0, value := 0, flags := false },
    kernel := Kernel.idle }

/-- The function `button_export(gpio)`. -/
def button_export (s : State) (gpio : Nat) (f : Faults) : Int × State :=
  let desc := s.button_table gpio
  let desc := { desc with zero_count := 0, value := 0 }
  let r := s.kernel.device_create f.device_create
  let desc := { desc with dev := r.1 }
  let table := Function.update s.button_table gpio desc
  match r.1 with
  | some dev =>
    let g := r.2.sysfs_create_group f.sysfs_create_group dev
    if g.1 = 0 then (0, { button_table := table, kernel := g.2 })
    else (g.1, { button_table := table, kernel := g.2.device_unregister dev })
  | none => (-ENODEV, { button_table := table, kernel := r.2 })

/-- The function `button_unexport(gpio)`. -/
def button_unexport (s : State) (gpio : Nat) : Int × State :=
  let desc := s.button_table gpio
  match desc.dev with
  | some dev => (0, { s with kernel := (s.kernel.put_device dev).device_unregister dev })
  | none => (-ENODEV, s)

/-- The statement `set_bit(FLAG_ACBUTTON, &button_table[gpio].flags)`. -/
def set_bit (s : State) (gpio : Nat) : State :=
  let desc := s.button_table gpio
  { s with button_table := Function.update s.button_table gpio { desc with flags := true } }

/-- The store done by `test_and_clear_bit(FLAG_ACBUTTON, &button_table[gpio].flags)`. -/
def clear_bit (s : State) (gpio : Nat) : State :=
  let desc := s.button_table gpio
  { s with button_table := Function.update s.button_table gpio { desc with flags := false } }

section
variable (ARCH_NR_GPIOS : Nat)

/-- The label `done:` of `export_store` and its return statement. -/
def export_done (s : State) (gpio : Int) (status : Int) (len : Nat) : Int × State :=
  if status ≠ 0 then (status, { s with kernel := s.kernel.gpio_free ARCH_NR_GPIOS gpio })
  else ((len : Int), s)

/-- The function `export_store(class, attr, buf, len)`.  `uninit` is the
indeterminate content of the local `gpio` when `kstrtol` stores nothing. -/
def export_store (s : State) (buf : Buf) (uninit : Int) (f : Faults) (len : Nat) :
    Int × State :=
  match kstrtol buf with
  | (status, none) => export_done ARCH_NR_GPIOS s uninit status len
  | (_, some gpio) =>
    let r := s.kernel.gpio_request ARCH_NR_GPIOS f.gpio_request gpio
    let s := { s with kernel := r.2 }
    if r.1 < 0 then export_done ARCH_NR_GPIOS s gpio r.1 len else
    let r := s.kernel.gpio_direction_input f.gpio_direction_input gpio
    let s := { s with kernel := r.2 }
    if r.1 < 0 then export_done ARCH_NR_GPIOS s gpio r.1 len else
    let r := button_export s gpio.toNat f
    let s := r.2
    if r.1 < 0 then export_done ARCH_NR_GPIOS s gpio r.1 len else
    let s := set_bit s gpio.toNat
    export_done ARCH_NR_GPIOS s gpio r.1 len

/-- The function `unexport_store(class, attr, buf, len)`. -/
def unexport_store (s : State) (buf : Buf) (len : Nat) : Int × State :=
  match kstrtol buf with
  | (status, none) => (if status ≠ 0 then status else (len : Int), s)
  | (_, some gpio) =>
    let status := -EINVAL
    if gpio_is_valid ARCH_NR_GPIOS gpio = false then
      (if status ≠ 0 then status else (len : Int), s)
    else if (s.button_table gpio.toNat).flags = true then
      let s := clear_bit s gpio.toNat
      let r := button_unexport s gpio.toNat
      let s := if r.1 = 0 then { r.2 with kernel := r.2.kernel.gpio_free ARCH_NR_GPIOS gpio } else r.2
      (if r.1 ≠ 0 then r.1 else (len : Int), s)
    else
      (if status ≠ 0 then status else (len : Int), s)

/-- The last statement of the loop body of `ac_button_zc_handler`: commit
`pressed` when it differs from `desc->value`; the flag tells whether
`sysfs_notify` was called. -/
def zc_commit (desc : button_desc) (pressed : Int) : button_desc × Bool :=
  if pressed ≠ desc.value then ({ desc with value := pressed }, true) else (desc, false)

/-- The loop body of `ac_button_zc_handler` for a descriptor whose
`FLAG_ACBUTTON` is set, given the result of `gpio_get_value(gpio)`. -/
def zc_sample (desc : button_desc) (gpio_value : Int) : button_desc × Bool :=
  let pressed : Int := if gpio_value ≠ 0 then 0 else 1
  if pressed = 0 ∧ desc.value ≠ 0 then
    let desc := { desc with zero_count := int_wrap (desc.zero_count + 1) }
    if desc.zero_count < 2 then (desc, false)
    else zc_commit desc pressed
  else zc_commit desc pressed

/-- One iteration of the loop of `ac_button_zc_handler`, for pin `gpio`;
`level` gives what `gpio_get_value` reads on each pin. -/
def zc_iter (level : Nat → Int) (s : State) (gpio : Nat) : State :=
  let desc := s.button_table gpio
  if desc.flags = false then s
  else
    let r := zc_sample desc (level gpio)
    { button_table := Function.update s.button_table gpio r.1,
      kernel := if r.2 = true then s.kernel.sysfs_notify gpio else s.kernel }

/-- The function `ac_button_zc_handler(status, data)`; neither argument is used. -/
def ac_button_zc_handler (s : State) (level : Nat → Int) : State :=
  (List.range ARCH_NR_GPIOS).foldl (zc_iter level) s

/-- Every pin reads low (0). -/
def all_low : Nat → Int := fun _ => 0

/-- Every pin reads high (1). -/
def all_high : Nat → Int := fun _ => 1

/-- The handler run once for every sample map of a list, in order. -/
def zc_run (s : State) (samples : List (Nat → Int)) : State :=
  samples.foldl (ac_button_zc_handler ARCH_NR_GPIOS) s

end

end ZC

/-! ## Polling variant (`src/drivers/ac_button_main.c`) -/

namespace Poller

/-- The C `struct button_desc`; `flags` holds the one bit used, `FLAG_ACBUTTON`. -/
structure button_desc where
  dev : Option Dev
  irq : Int
  interrupted : Int
  value : Int
  flags : Bool
  deriving DecidableEq, Repr

/-- Driver state: the static `button_table` and `timer_on`, and the kernel
around them. -/
structure State where
  button_table : Nat → button_desc
  timer_on : Int
  kernel : Kernel

/-- Zero-initialised static storage, before any call. -/
def State.init : State :=
  { button_table := fun _ =>
      { dev := none, irq := 0, interrupted := 0, value := 0, flags := false },
    timer_on := 0,
    kernel := Kernel.idle }

/-- The function `button_export(gpio)`. -/
def button_export (s : State) (gpio : Nat) (f : Faults) : Int × State :=
  let desc := s.button_table gpio
  let desc := { desc with interrupted := 0, value := 0 }
  let r := s.kernel.device_create f.device_create
  let desc := { desc with dev := r.1 }
  let table := Function.update s.button_table gpio desc
  match r.1 with
  | some dev =>
    let g := r.2.sysfs_create_group f.sysfs_create_group dev
    if g.1 = 0 then (0, { s with button_table := table, kernel := g.2 })
    else (g.1, { s with button_table := table, kernel := g.2.device_unregister dev })
  | none => (-ENODEV, { s with button_table := table, kernel := r.2 })

/-- The function `button_unexport(gpio)`. -/
def button_unexport (s : State) (gpio : Nat) : Int × State :=
  let desc := s.button_table gpio
  match desc.dev with
  | some dev => (0, { s with kernel := s.kernel.device_unregister dev })
  | none => (-ENODEV, s)

/-- The statement `set_bit(FLAG_ACBUTTON, &button_table[gpio].flags)`. -/
def set_bit (s : State) (gpio : Nat) : State :=
  let desc := s.button_table gpio
  { s with button_table := Function.update s.button_table gpio { desc with flags := true } }

/-- The store done by `test_and_clear_bit(FLAG_ACBUTTON, &button_table[gpio].flags)`. -/
def clear_bit (s : State) (gpio : Nat) : State :=
  let desc := s.button_table gpio
  { s with button_table := Function.update s.button_table gpio { desc with flags := false } }

/-- The statement `button_table[gpio].irq = irq`. -/
def set_irq (s : State) (gpio : Nat) (irq : Int) : State :=
  let desc := s.button_table gpio
  { s with button_table := Function.update s.button_table gpio { desc with irq := irq } }

/-- The statement `if(!timer_on) { hrtimer_start(...); timer_on = 1; }`. -/
def start_timer (s : State) : State :=
  if s.timer_on = 0 then { s with kernel := s.kernel.hrtimer_start, timer_on := 1 } else s

section
variable (ARCH_NR_GPIOS : Nat)

/-- The label `fail_after_gpio:` of `export_store`, falling through to `fail_safe:`. -/
def fail_after_gpio (s : State) (gpio : Int) (status : Int) : Int × State :=
  (status, { s with kernel := s.kernel.gpio_free ARCH_NR_GPIOS gpio })

/-- The label `fail_after_irq:` of `export_store`, falling through to `fail_after_gpio:`. -/
def fail_after_irq (s : State) (gpio : Int) (irq : Int) (status : Int) : Int × State :=
  fail_after_gpio ARCH_NR_GPIOS { s with kernel := s.kernel.free_irq irq } gpio status

/-- The function `export_store(class, attr, buf, len)`. -/
def export_store (s : State) (buf : Buf) (f : Faults) (len : Nat) : Int × State :=
  match kstrtol buf with
  | (status, none) => (status, s)
  | (_, some gpio) =>
    let r := s.kernel.gpio_request ARCH_NR_GPIOS f.gpio_request gpio
    let s := { s with kernel := r.2 }
    if r.1 < 0 then (r.1, s) else
    let r := s.kernel.gpio_direction_input f.gpio_direction_input gpio
    let s := { s with kernel := r.2 }
    if r.1 < 0 then fail_after_gpio ARCH_NR_GPIOS s gpio r.1 else
    let irq := f.gpio_to_irq
    if irq < 0 then fail_after_gpio ARCH_NR_GPIOS s gpio irq else
    let r := s.kernel.request_irq f.request_irq irq
    let s := { s with kernel := r.2 }
    if r.1 < 0 then fail_after_gpio ARCH_NR_GPIOS s gpio r.1 else
    let r := button_export s gpio.toNat f
    let s := r.2
    if r.1 < 0 then fail_after_irq ARCH_NR_GPIOS s gpio irq r.1 else
    let s := set_irq s gpio.toNat irq
    let s := set_bit s gpio.toNat
    let s := start_timer s
    ((len : Int), s)

/-- The function `unexport_store(class, attr, buf, len)`. -/
def unexport_store (s : State) (buf : Buf) (len : Nat) : Int × State :=
  match kstrtol buf with
  | (status, none) => (if status ≠ 0 then status else (len : Int), s)
  | (_, some gpio) =>
    let status := -EINVAL
    if gpio_is_valid ARCH_NR_GPIOS gpio = false then
      (if status ≠ 0 then status else (len : Int), s)
    else if (s.button_table gpio.toNat).flags = true then
      let s := clear_bit s gpio.toNat
      let r := button_unexport s gpio.toNat
      let s := if r.1 = 0 then
          { r.2 with kernel :=
              (r.2.kernel.free_irq (r.2.button_table gpio.toNat).irq).gpio_free ARCH_NR_GPIOS gpio }
        else r.2
      (if r.1 ≠ 0 then r.1 else (len : Int), s)
    else
      (if status ≠ 0 then status else (len : Int), s)

/-- The C `irqreturn_t`. -/
inductive irqreturn_t
  | IRQ_NONE
  | IRQ_HANDLED
  deriving DecidableEq, Repr

/-- The loop of `ac_button_irq_handler` over the pins still to visit: the first
active descriptor with this irq number gets `interrupted = 1`, then `break`. -/
def irq_scan (irq : Int) (s : State) : List Nat → State
  | [] => s
  | gpio :: rest =>
    let desc := s.button_table gpio
    if desc.flags = false then irq_scan irq s rest
    else if irq ≠ desc.irq then irq_scan irq s rest
    else { s with button_table :=
             Function.update s.button_table gpio { desc with interrupted := 1 } }

/-- The function `ac_button_irq_handler(irq, dev_id)`; `dev_id_is_class` tells
whether `dev_id == &ac_button_class`. -/
def ac_button_irq_handler (s : State) (irq : Int) (dev_id_is_class : Bool) :
    irqreturn_t × State :=
  if dev_id_is_class = false then (irqreturn_t.IRQ_NONE, s)
  else (irqreturn_t.IRQ_HANDLED, irq_scan irq s (List.range ARCH_NR_GPIOS))

/-- The loop body of `ac_button_hrtimer_callback` for a descriptor whose
`FLAG_ACBUTTON` is set; the flag tells whether `sysfs_notify` was called. -/
def tick_sample (desc : button_desc) : button_desc × Bool :=
  let interrupted := desc.interrupted
  let r : button_desc × Bool :=
    if interrupted ≠ desc.value then ({ desc with value := interrupted }, true) else (desc, false)
  ({ r.1 with interrupted := 0 }, r.2)

/-- One iteration of the loop of `ac_button_hrtimer_callback`, for pin `gpio`;
the second component is `restart_timer`. -/
def tick_iter (a : State × Int) (gpio : Nat) : State × Int :=
  let s := a.1
  let desc := s.button_table gpio
  if desc.flags = false then a
  else
    let r := tick_sample desc
    ({ s with button_table := Function.update s.button_table gpio r.1,
              kernel := if r.2 = true then s.kernel.sysfs_notify gpio else s.kernel }, 1)

/-- The function `ac_button_hrtimer_callback(timer)`. -/
def ac_button_hrtimer_callback (s : State) : State :=
  let a := (List.range ARCH_NR_GPIOS).foldl tick_iter (s, 0)
  if a.2 ≠ 0 then { a.1 with kernel := a.1.kernel.hrtimer_start }
  else { a.1 with timer_on := 0 }

end

end Poller

/-! ## Concrete states used to evaluate the code -/

/-- The zero-crossing table before any call, with pin `gpio` held by another driver. -/
def ZC.State.pin_taken (gpio : Nat) : ZC.State :=
  { ZC.State.init with
    kernel := { Kernel.idle with
      requested := Function.update Kernel.idle.requested gpio (some Label.other) } }

/-- The polling table before any call, with pin `gpio` held by another driver. -/
def Poller.State.pin_taken (gpio : Nat) : Poller.State :=
  { Poller.State.init with
    kernel := { Kernel.idle with
      requested := Function.update Kernel.idle.requested gpio (some Label.other) } }

/-! ## Runs of the drivers from the initial table -/

/-- One entry into the zero-crossing driver: a write to `export`, a write to
`unexport`, or one zero-crossing callback. -/
inductive ZC.Op
  | export_store (buf : Buf) (uninit : Int) (f : Faults) (len : Nat)
  | unexport_store (buf : Buf) (len : Nat)
  | ac_button_zc_handler (level : Nat → Int)

/-- The state after one entry into the zero-crossing driver. -/
def ZC.op_step (ARCH_NR_GPIOS : Nat) (s : ZC.State) (op : ZC.Op) : ZC.State :=
  match op with
  | ZC.Op.export_store buf uninit f len => (ZC.export_store ARCH_NR_GPIOS s buf uninit f len).2
  | ZC.Op.unexport_store buf len => (ZC.unexport_store ARCH_NR_GPIOS s buf len).2
  | ZC.Op.ac_button_zc_handler level => ZC.ac_button_zc_handler ARCH_NR_GPIOS s level

/-- The state after a list of entries into the zero-crossing driver, in order. -/
def ZC.exec (ARCH_NR_GPIOS : Nat) (s : ZC.State) (ops : List ZC.Op) : ZC.State :=
  ops.foldl (ZC.op_step ARCH_NR_GPIOS) s

/-- One entry into the polling driver: a write to `export`, a write to
`unexport`, an interrupt, or a timer tick. -/
inductive Poller.Op
  | export_store (buf : Buf) (f : Faults) (len : Nat)
  | unexport_store (buf : Buf) (len : Nat)
  | ac_button_irq_handler (irq : Int) (dev_id_is_class : Bool)
  | ac_button_hrtimer_callback

/-- The state after one entry into the polling driver. -/
def Poller.op_step (ARCH_NR_GPIOS : Nat) (s : Poller.State) (op : Poller.Op) : Poller.State :=
  match op with
  | Poller.Op.export_store buf f len => (Poller.export_store ARCH_NR_GPIOS s buf f len).2
  | Poller.Op.unexport_store buf len => (Poller.unexport_store ARCH_NR_GPIOS s buf len).2
  | Poller.Op.ac_button_irq_handler irq dev_id_is_class =>
    (Poller.ac_button_irq_handler ARCH_NR_GPIOS s irq dev_id_is_class).2
  | Poller.Op.ac_button_hrtimer_callback => Poller.ac_button_hrtimer_callback ARCH_NR_GPIOS s

/-- The state after a list of entries into the polling driver, in order. -/
def Poller.exec (ARCH_NR_GPIOS : Nat) (s : Poller.State) (ops : List Poller.Op) : Poller.State :=
  ops.foldl (Poller.op_step ARCH_NR_GPIOS) s

/-- No injected fault except in `sysfs_create_group`, which returns `-errno`. -/
def Faults.group_fails (dev : Dev) (irq : Int) (errno : Nat) : Faults :=
  { gpio_request := 0, gpio_direction_input := 0, gpio_to_irq := irq, request_irq := 0,
    device_create := some dev, sysfs_create_group := errno }

end AcButton

/-! ## The zero-crossing handler, pin by pin -/

namespace AcButton

namespace ZC

theorem zc_handler_succ (n : Nat) (s : State) (level : Nat → Int) :
    ac_button_zc_handler (n + 1) s level = zc_iter level (ac_button_zc_handler n s level) n := by
  simp [ac_button_zc_handler, List.range_succ, List.foldl_append]

theorem zc_iter_table_ne (level : Nat → Int) (s : State) (g i : Nat) (h : i ≠ g) :
    (zc_iter level s g).button_table i = s.button_table i := by
  unfold zc_iter
  by_cases hf : (s.button_table g).flags = false
  · simp [hf]
  · simp [hf, Function.update_noteq h]

theorem zc_iter_table_same (level : Nat → Int) (s : State) (g : Nat) :
    (zc_iter level s g).button_table g =
      if (s.button_table g).flags = true then (zc_sample (s.button_table g) (level g)).1
      else s.button_table g := by
  unfold zc_iter
  by_cases hf : (s.button_table g).flags = false
  · simp [hf]
  · simp [hf]

theorem zc_handler_table (n : Nat) (s : State) (level : Nat → Int) (g : Nat) :
    (ac_button_zc_handler n s level).button_table g =
      if g < n ∧ (s.button_table g).flags = true then (zc_sample (s.button_table g) (level g)).1
      else s.button_table g := by
  induction n with
  | zero => simp [ac_button_zc_handler]
  | succ n ih =>
    rw [zc_handler_succ]
    by_cases hgn : g = n
    · subst hgn
      rw [zc_iter_table_same, ih]
      simp
    · rw [zc_iter_table_ne _ _ _ _ hgn, ih]
      have : (g < n + 1) ↔ g < n := by omega
      simp [this]

theorem zc_iter_notify (level : Nat → Int) (s : State) (g i : Nat) :
    (zc_iter level s g).kernel.notify_count i =
      s.kernel.notify_count i +
        if i = g ∧ (s.button_table g).flags = true ∧ (zc_sample (s.button_table g) (level g)).2 = true
        then 1 else 0 := by
  unfold zc_iter
  by_cases hf : (s.button_table g).flags = false
  · simp [hf]
  · by_cases hn : (zc_sample (s.button_table g) (level g)).2 = true
    · by_cases hi : i = g
      · simp [hf, hn, hi, Kernel.notify_count, Kernel.sysfs_notify]
      · simp [hf, hn, hi, Kernel.notify_count, Kernel.sysfs_notify, List.count_singleton]
    · simp [hf, hn]

theorem zc_handler_notify (n : Nat) (s : State) (level : Nat → Int) (g : Nat) :
    (ac_button_zc_handler n s level).kernel.notify_count g =
      s.kernel.notify_count g +
        if g < n ∧ (s.button_table g).flags = true ∧ (zc_sample (s.button_table g) (level g)).2 = true
        then 1 else 0 := by
  induction n with
  | zero => simp [ac_button_zc_handler]
  | succ n ih =>
    rw [zc_handler_succ, zc_iter_notify, ih]
    by_cases hgn : g = n
    · subst hgn
      have ht := zc_handler_table g s level g
      simp at ht
      simp [ht]
    · have : (g < n + 1) ↔ g < n := by omega
      simp [hgn, this]

end ZC

end AcButton

/-! ## Zero-crossing debounce (C1 to C3) -/

namespace AcButton

namespace ZC

theorem int_wrap_one : int_wrap 1 = 1 := by decide

theorem int_wrap_two : int_wrap 2 = 2 := by decide

/-- C1: evaluation of the handler at the failing input.  After a fresh export of
pin 2, the samples low, high, low leave the value at 1 with `zero_count` still 1,
and the next high sample commits the release and notifies, although the sample
just before it read low: `zero_count` is never reset. -/
theorem zc_release_after_interleaved_low :
    (export_store 4 State.init (Buf.number 2) 0 (Faults.none 7 0) 3).1 = 3 ∧
    (zc_run 4 (export_store 4 State.init (Buf.number 2) 0 (Faults.none 7 0) 3).2
        [all_low]).button_table 2
      = { dev := some 7, zero_count := 0, value := 1, flags := true } ∧
    (zc_run 4 (export_store 4 State.init (Buf.number 2) 0 (Faults.none 7 0) 3).2
        [all_low, all_high, all_low]).button_table 2
      = { dev := some 7, zero_count := 1, value := 1, flags := true } ∧
    (zc_run 4 (export_store 4 State.init (Buf.number 2) 0 (Faults.none 7 0) 3).2
        [all_low, all_high, all_low, all_high]).button_table 2
      = { dev := some 7, zero_count := 2, value := 0, flags := true } ∧
    (zc_run 4 (export_store 4 State.init (Buf.number 2) 0 (Faults.none 7 0) 3).2
        [all_low, all_high, all_low, all_high]).kernel.notify_count 2
      = (zc_run 4 (export_store 4 State.init (Buf.number 2) 0 (Faults.none 7 0) 3).2
        [all_low, all_high, all_low]).kernel.notify_count 2 + 1 := by
  decide

/-- C2: in the zero-crossing variant, an active channel with value 0 (whatever its
`zero_count`) whose pin reads low goes to value 1 in that handler invocation,
with exactly one notification for it; a following invocation in which the pin
again reads low changes nothing in the channel and notifies nothing. -/
theorem zc_low_sample_commits_press (ARCH_NR_GPIOS : Nat) (s : State) (level level2 : Nat → Int)
    (g : Nat) (hg : g < ARCH_NR_GPIOS) (hact : (s.button_table g).flags = true)
    (hval : (s.button_table g).value = 0) (hlow : level g = 0) (hlow2 : level2 g = 0) :
    ((ac_button_zc_handler ARCH_NR_GPIOS s level).button_table g).value = 1 ∧
    ((ac_button_zc_handler ARCH_NR_GPIOS s level).button_table g).zero_count
      = (s.button_table g).zero_count ∧
    (ac_button_zc_handler ARCH_NR_GPIOS s level).kernel.notify_count g
      = s.kernel.notify_count g + 1 ∧
    (ac_button_zc_handler ARCH_NR_GPIOS (ac_button_zc_handler ARCH_NR_GPIOS s level) level2).button_table g
      = (ac_button_zc_handler ARCH_NR_GPIOS s level).button_table g ∧
    (ac_button_zc_handler ARCH_NR_GPIOS (ac_button_zc_handler ARCH_NR_GPIOS s level) level2).kernel.notify_count g
      = (ac_button_zc_handler ARCH_NR_GPIOS s level).kernel.notify_count g := by
  have h1 : (ac_button_zc_handler ARCH_NR_GPIOS s level).button_table g
      = { (s.button_table g) with value := 1 } := by
    rw [zc_handler_table]
    simp [hg, hact, zc_sample, zc_commit, hlow, hval]
  refine ⟨?_, ?_, ?_, ?_, ?_⟩
  · rw [h1]
  · rw [h1]
  · rw [zc_handler_notify]
    simp [hg, hact, zc_sample, zc_commit, hlow, hval]
  · rw [zc_handler_table ARCH_NR_GPIOS (ac_button_zc_handler ARCH_NR_GPIOS s level), h1]
    simp [hg, hact, zc_sample, zc_commit, hlow2]
  · rw [zc_handler_notify ARCH_NR_GPIOS (ac_button_zc_handler ARCH_NR_GPIOS s level), h1]
    simp [hg, hact, zc_sample, zc_commit, hlow2]

/-- Witness for C2: pin 2 freshly exported, then two low samples. -/
theorem zc_low_sample_commits_press_witness :
    ((ac_button_zc_handler 4 (export_store 4 State.init (Buf.number 2) 0 (Faults.none 7 0) 3).2
        all_low).button_table 2).value = 1 ∧
    (ac_button_zc_handler 4
        (ac_button_zc_handler 4 (export_store 4 State.init (Buf.number 2) 0 (Faults.none 7 0) 3).2
          all_low) all_low).button_table 2
      = (ac_button_zc_handler 4 (export_store 4 State.init (Buf.number 2) 0 (Faults.none 7 0) 3).2
          all_low).button_table 2 :=
  have h := zc_low_sample_commits_press 4
    (export_store 4 State.init (Buf.number 2) 0 (Faults.none 7 0) 3).2 all_low all_low 2
    (by decide) (by decide) (by decide) rfl rfl
  ⟨h.1, h.2.2.2.1⟩

/-- C3: in the zero-crossing variant, an active channel with value 1 and
`zero_count` 0 whose pin reads high keeps value 1, gets `zero_count` 1 and no
notification; a second invocation right after it in which the pin again reads
high sets the value to 0 with exactly one notification. -/
theorem zc_release_needs_second_high (ARCH_NR_GPIOS : Nat) (s : State) (level level2 : Nat → Int)
    (g : Nat) (hg : g < ARCH_NR_GPIOS) (hact : (s.button_table g).flags = true)
    (hval : (s.button_table g).value = 1) (hzero : (s.button_table g).zero_count = 0)
    (hhigh : level g ≠ 0) (hhigh2 : level2 g ≠ 0) :
    ((ac_button_zc_handler ARCH_NR_GPIOS s level).button_table g).value = 1 ∧
    ((ac_button_zc_handler ARCH_NR_GPIOS s level).button_table g).zero_count = 1 ∧
    (ac_button_zc_handler ARCH_NR_GPIOS s level).kernel.notify_count g
      = s.kernel.notify_count g ∧
    ((ac_button_zc_handler ARCH_NR_GPIOS (ac_button_zc_handler ARCH_NR_GPIOS s level) level2).button_table g).value
      = 0 ∧
    (ac_button_zc_handler ARCH_NR_GPIOS (ac_button_zc_handler ARCH_NR_GPIOS s level) level2).kernel.notify_count g
      = (ac_button_zc_handler ARCH_NR_GPIOS s level).kernel.notify_count g + 1 := by
  have h1 : (ac_button_zc_handler ARCH_NR_GPIOS s level).button_table g
      = { (s.button_table g) with zero_count := 1 } := by
    rw [zc_handler_table]
    simp [hg, hact, zc_sample, hhigh, hval, hzero, int_wrap_one]
  refine ⟨?_, ?_, ?_, ?_, ?_⟩
  · rw [h1]; exact hval
  · rw [h1]
  · rw [zc_handler_notify]
    simp [hg, hact, zc_sample, hhigh, hval, hzero, int_wrap_one]
  · rw [zc_handler_table ARCH_NR_GPIOS (ac_button_zc_handler ARCH_NR_GPIOS s level), h1]
    simp [hg, hact, zc_sample, zc_commit, hhigh2, hval, int_wrap_two]
  · rw [zc_handler_notify ARCH_NR_GPIOS (ac_button_zc_handler ARCH_NR_GPIOS s level), h1]
    simp [hg, hact, zc_sample, zc_commit, hhigh2, hval, int_wrap_two]

/-- Witness for C3: pin 2 freshly exported and pressed by one low sample, then
two high samples. -/
theorem zc_release_needs_second_high_witness :
    ((ac_button_zc_handler 4
        (zc_run 4 (export_store 4 State.init (Buf.number 2) 0 (Faults.none 7 0) 3).2 [all_low])
        all_high).button_table 2).value = 1 ∧
    ((ac_button_zc_handler 4 (ac_button_zc_handler 4
        (zc_run 4 (export_store 4 State.init (Buf.number 2) 0 (Faults.none 7 0) 3).2 [all_low])
        all_high) all_high).button_table 2).value = 0 :=
  have h := zc_release_needs_second_high 4
    (zc_run 4 (export_store 4 State.init (Buf.number 2) 0 (Faults.none 7 0) 3).2 [all_low])
    all_high all_high 2 (by decide) (by decide) (by decide) (by decide) (by decide) (by decide)
  ⟨h.1, h.2.2.2.1⟩

end ZC

end AcButton

/-! ## The polling handlers, pin by pin -/

namespace AcButton

namespace Poller

theorem tick_fold_succ (n : Nat) (a : State × Int) :
    (List.range (n + 1)).foldl tick_iter a = tick_iter ((List.range n).foldl tick_iter a) n := by
  simp [List.range_succ, List.foldl_append]

theorem tick_iter_table_ne (a : State × Int) (g i : Nat) (h : i ≠ g) :
    (tick_iter a g).1.button_table i = a.1.button_table i := by
  unfold tick_iter
  by_cases hf : (a.1.button_table g).flags = false
  · simp [hf]
  · simp [hf, Function.update_noteq h]

theorem tick_iter_table_same (a : State × Int) (g : Nat) :
    (tick_iter a g).1.button_table g =
      if (a.1.button_table g).flags = true then (tick_sample (a.1.button_table g)).1
      else a.1.button_table g := by
  unfold tick_iter
  by_cases hf : (a.1.button_table g).flags = false
  · simp [hf]
  · simp [hf]

theorem tick_fold_table (n : Nat) (a : State × Int) (g : Nat) :
    ((List.range n).foldl tick_iter a).1.button_table g =
      if g < n ∧ (a.1.button_table g).flags = true then (tick_sample (a.1.button_table g)).1
      else a.1.button_table g := by
  induction n with
  | zero => simp
  | succ n ih =>
    rw [tick_fold_succ]
    by_cases hgn : g = n
    · subst hgn
      rw [tick_iter_table_same, ih]
      simp
    · rw [tick_iter_table_ne _ _ _ hgn, ih]
      have : (g < n + 1) ↔ g < n := by omega
      simp [this]

theorem tick_iter_notify (a : State × Int) (g i : Nat) :
    (tick_iter a g).1.kernel.notify_count i =
      a.1.kernel.notify_count i +
        if i = g ∧ (a.1.button_table g).flags = true ∧ (tick_sample (a.1.button_table g)).2 = true
        then 1 else 0 := by
  unfold tick_iter
  by_cases hf : (a.1.button_table g).flags = false
  · simp [hf]
  · by_cases hn : (tick_sample (a.1.button_table g)).2 = true
    · by_cases hi : i = g
      · simp [hf, hn, hi, Kernel.notify_count, Kernel.sysfs_notify]
      · simp [hf, hn, hi, Kernel.notify_count, Kernel.sysfs_notify, List.count_singleton]
    · simp [hf, hn]

theorem tick_fold_notify (n : Nat) (a : State × Int) (g : Nat) :
    ((List.range n).foldl tick_iter a).1.kernel.notify_count g =
      a.1.kernel.notify_count g +
        if g < n ∧ (a.1.button_table g).flags = true ∧ (tick_sample (a.1.button_table g)).2 = true
        then 1 else 0 := by
  induction n with
  | zero => simp
  | succ n ih =>
    rw [tick_fold_succ, tick_iter_notify, ih]
    by_cases hgn : g = n
    · subst hgn
      have ht := tick_fold_table g a g
      simp at ht
      simp [ht]
    · have : (g < n + 1) ↔ g < n := by omega
      simp [hgn, this]

theorem hrtimer_callback_table (n : Nat) (s : State) (g : Nat) :
    (ac_button_hrtimer_callback n s).button_table g =
      if g < n ∧ (s.button_table g).flags = true then (tick_sample (s.button_table g)).1
      else s.button_table g := by
  have h := tick_fold_table n (s, 0) g
  have e : (ac_button_hrtimer_callback n s).button_table
      = ((List.range n).foldl tick_iter (s, 0)).1.button_table := by
    dsimp only [ac_button_hrtimer_callback]
    split <;> rfl
  rw [e]
  exact h

theorem hrtimer_callback_notify (n : Nat) (s : State) (g : Nat) :
    (ac_button_hrtimer_callback n s).kernel.notify_count g =
      s.kernel.notify_count g +
        if g < n ∧ (s.button_table g).flags = true ∧ (tick_sample (s.button_table g)).2 = true
        then 1 else 0 := by
  have h := tick_fold_notify n (s, 0) g
  have e : (ac_button_hrtimer_callback n s).kernel.notify_count g
      = ((List.range n).foldl tick_iter (s, 0)).1.kernel.notify_count g := by
    dsimp only [ac_button_hrtimer_callback]
    split
    · simp [Kernel.notify_count, Kernel.hrtimer_start]
    · rfl
  rw [e]
  exact h

theorem irq_scan_skip (irq : Int) (s : State) (l : List Nat)
    (h : ∀ j ∈ l, (s.button_table j).flags = true → (s.button_table j).irq ≠ irq) :
    irq_scan irq s l = s := by
  induction l with
  | nil => rfl
  | cons j rest ih =>
    have hrest : ∀ i ∈ rest, (s.button_table i).flags = true → (s.button_table i).irq ≠ irq :=
      fun i hi => h i (List.mem_cons_of_mem j hi)
    have hj := h j (List.mem_cons_self j rest)
    unfold irq_scan
    by_cases hf : (s.button_table j).flags = false
    · simp [hf, ih hrest]
    · have hf2 : (s.button_table j).flags = true := by simpa using hf
      have hne : irq ≠ (s.button_table j).irq := fun e => hj hf2 e.symm
      simp [hf2, hne, ih hrest]

theorem irq_scan_latch (irq : Int) (s : State) (l1 l2 : List Nat) (g : Nat)
    (h : ∀ j ∈ l1, (s.button_table j).flags = true → (s.button_table j).irq ≠ irq)
    (hact : (s.button_table g).flags = true) (hirq : (s.button_table g).irq = irq) :
    irq_scan irq s (l1 ++ g :: l2) =
      { s with button_table :=
          Function.update s.button_table g { (s.button_table g) with interrupted := 1 } } := by
  induction l1 with
  | nil =>
    simp [irq_scan, hact, hirq]
  | cons j rest ih =>
    have hrest : ∀ i ∈ rest, (s.button_table i).flags = true → (s.button_table i).irq ≠ irq :=
      fun i hi => h i (List.mem_cons_of_mem j hi)
    have hj := h j (List.mem_cons_self j rest)
    rw [List.cons_append]
    unfold irq_scan
    by_cases hf : (s.button_table j).flags = false
    · simp [hf, ih hrest]
    · have hf2 : (s.button_table j).flags = true := by simpa using hf
      have hne : irq ≠ (s.button_table j).irq := fun e => hj hf2 e.symm
      simp [hf2, hne, ih hrest]

theorem range_split (n g : Nat) (hg : g < n) :
    ∃ l2, List.range n = List.range g ++ g :: l2 := by
  obtain ⟨k, rfl⟩ : ∃ k, n = g + (k + 1) := ⟨n - g - 1, by omega⟩
  refine ⟨(List.range k).map (fun i => g + (i + 1)), ?_⟩
  rw [List.range_add, List.range_succ_eq_map]
  simp [Function.comp_def]

theorem irq_handler_latch (n : Nat) (s : State) (irq : Int) (g : Nat) (hg : g < n)
    (hfirst : ∀ j, j < g → (s.button_table j).flags = true → (s.button_table j).irq ≠ irq)
    (hact : (s.button_table g).flags = true) (hirq : (s.button_table g).irq = irq) :
    (ac_button_irq_handler n s irq true).2 =
      { s with button_table :=
          Function.update s.button_table g { (s.button_table g) with interrupted := 1 } } := by
  obtain ⟨l2, hl⟩ := range_split n g hg
  simp only [ac_button_irq_handler, hl]
  exact irq_scan_latch irq s (List.range g) l2 g
    (fun j hj => hfirst j (List.mem_range.mp hj)) hact hirq

end Poller

end AcButton

/-! ## Polling debounce (C4) -/

namespace AcButton

namespace Poller

theorem tick_sample_value (desc : button_desc) :
    (tick_sample desc).1.value = desc.interrupted := by
  unfold tick_sample
  by_cases h : desc.interrupted = desc.value
  · simp [h]
  · simp [h]

theorem tick_sample_interrupted (desc : button_desc) :
    (tick_sample desc).1.interrupted = 0 := by
  simp [tick_sample]

theorem tick_sample_notify (desc : button_desc) :
    (tick_sample desc).2 = true ↔ (tick_sample desc).1.value ≠ desc.value := by
  unfold tick_sample
  by_cases h : desc.interrupted = desc.value
  · simp [h]
  · simp [h]

/-- C4: in the polling variant, one timer tick leaves every active channel with
its value equal to the `interrupted` flag it had before the tick and with
`interrupted` 0, and notifies for the channel exactly when the value changed.
Hence when `ac_button_irq_handler` latches an interrupt on an active channel
with value 0 (the first active channel holding the delivered irq number), the
next tick commits value 1, clears the flag and notifies once. -/
theorem poller_tick_commits_interrupted (ARCH_NR_GPIOS : Nat) (s : State) (g : Nat)
    (hg : g < ARCH_NR_GPIOS) (hact : (s.button_table g).flags = true) :
    ((ac_button_hrtimer_callback ARCH_NR_GPIOS s).button_table g).value
      = (s.button_table g).interrupted ∧
    ((ac_button_hrtimer_callback ARCH_NR_GPIOS s).button_table g).interrupted = 0 ∧
    (ac_button_hrtimer_callback ARCH_NR_GPIOS s).kernel.notify_count g
      = s.kernel.notify_count g +
        (if ((ac_button_hrtimer_callback ARCH_NR_GPIOS s).button_table g).value
              ≠ (s.button_table g).value then 1 else 0) ∧
    (∀ irq : Int, (s.button_table g).irq = irq →
      (∀ j, j < g → (s.button_table j).flags = true → (s.button_table j).irq ≠ irq) →
      (s.button_table g).value = 0 →
      ((ac_button_irq_handler ARCH_NR_GPIOS s irq true).2.button_table g).interrupted = 1 ∧
      ((ac_button_hrtimer_callback ARCH_NR_GPIOS
          (ac_button_irq_handler ARCH_NR_GPIOS s irq true).2).button_table g).value = 1 ∧
      ((ac_button_hrtimer_callback ARCH_NR_GPIOS
          (ac_button_irq_handler ARCH_NR_GPIOS s irq true).2).button_table g).interrupted = 0 ∧
      (ac_button_hrtimer_callback ARCH_NR_GPIOS
          (ac_button_irq_handler ARCH_NR_GPIOS s irq true).2).kernel.notify_count g
        = s.kernel.notify_count g + 1) := by
  have key : ∀ t : State, (t.button_table g).flags = true →
      (ac_button_hrtimer_callback ARCH_NR_GPIOS t).button_table g
        = (tick_sample (t.button_table g)).1 := by
    intro t ht
    rw [hrtimer_callback_table]
    simp [hg, ht]
  have keyn : ∀ t : State, (t.button_table g).flags = true →
      (ac_button_hrtimer_callback ARCH_NR_GPIOS t).kernel.notify_count g
        = t.kernel.notify_count g +
          (if (tick_sample (t.button_table g)).1.value ≠ (t.button_table g).value then 1 else 0) := by
    intro t ht
    rw [hrtimer_callback_notify]
    by_cases hn : (tick_sample (t.button_table g)).2 = true
    · have := (tick_sample_notify (t.button_table g)).mp hn
      simp [hg, ht, hn, this]
    · have : ¬ (tick_sample (t.button_table g)).1.value ≠ (t.button_table g).value :=
        fun h => hn ((tick_sample_notify (t.button_table g)).mpr h)
      simp [hn, this]
  refine ⟨?_, ?_, ?_, ?_⟩
  · rw [key s hact, tick_sample_value]
  · rw [key s hact, tick_sample_interrupted]
  · rw [keyn s hact, key s hact]
  · intro irq hirq hfirst hval
    have hl := irq_handler_latch ARCH_NR_GPIOS s irq g hg hfirst hact hirq
    have hslot : (ac_button_irq_handler ARCH_NR_GPIOS s irq true).2.button_table g
        = { (s.button_table g) with interrupted := 1 } := by
      rw [hl]; simp
    have hact1 : ((ac_button_irq_handler ARCH_NR_GPIOS s irq true).2.button_table g).flags = true := by
      rw [hslot]; exact hact
    have hker : (ac_button_irq_handler ARCH_NR_GPIOS s irq true).2.kernel = s.kernel := by
      rw [hl]
    refine ⟨?_, ?_, ?_, ?_⟩
    · rw [hslot]
    · rw [key _ hact1, tick_sample_value, hslot]
    · rw [key _ hact1, tick_sample_interrupted]
    · rw [keyn _ hact1, tick_sample_value, hslot, hker]
      simp [hval]

/-- Witness for C4: pin 2 freshly exported with irq 42, one interrupt on irq 42,
then a tick. -/
theorem poller_tick_commits_interrupted_witness :
    ((ac_button_hrtimer_callback 4
        (ac_button_irq_handler 4
          (export_store 4 State.init (Buf.number 2) (Faults.none 7 42) 3).2 42 true).2).button_table 2).value
      = 1 :=
  ((poller_tick_commits_interrupted 4
      (export_store 4 State.init (Buf.number 2) (Faults.none 7 42) 3).2 2
      (by decide) (by decide)).2.2.2 42 (by decide)
      (by intro j hj; interval_cases j <;> decide) (by decide)).2.1

end Poller

end AcButton

/-! ## Export and unexport (C5, C8, C9) -/

namespace AcButton

theorem gpio_is_valid_of_lt (n p : Nat) (hp : p < n) : gpio_is_valid n (p : Int) = true := by
  have h : (p : Int) < (n : Int) := by exact_mod_cast hp
  simp [gpio_is_valid, h]

/-- C5: evaluation of the zero-crossing `export_store` at the failing input.  Pin
2 is held by another driver, so `gpio_request` fails with `-EBUSY`; the only
kernel call the export then makes is `gpio_free(2)`, and the pin it never held
is free afterwards.  The polling variant at the same input makes no kernel call
and leaves the pin with its holder. -/
theorem zc_export_frees_pin_it_never_held :
    (ZC.State.pin_taken 2).kernel.requested 2 = some Label.other ∧
    (ZC.export_store 4 (ZC.State.pin_taken 2) (Buf.number 2) 0 (Faults.none 7 0) 3).1 = -EBUSY ∧
    (ZC.export_store 4 (ZC.State.pin_taken 2) (Buf.number 2) 0 (Faults.none 7 0) 3).2.kernel.calls
      = [Call.gpio_free 2] ∧
    (ZC.export_store 4 (ZC.State.pin_taken 2) (Buf.number 2) 0 (Faults.none 7 0) 3).2.kernel.requested 2
      = none ∧
    (Poller.export_store 4 (Poller.State.pin_taken 2) (Buf.number 2) (Faults.none 7 0) 3).1 = -EBUSY ∧
    (Poller.export_store 4 (Poller.State.pin_taken 2) (Buf.number 2) (Faults.none 7 0) 3).2.kernel.calls
      = [] ∧
    (Poller.export_store 4 (Poller.State.pin_taken 2) (Buf.number 2) (Faults.none 7 0) 3).2.kernel.requested 2
      = some Label.other := by
  decide

/-- C8: evaluation of the zero-crossing `export_store` at the failing input.  Pin
2 is exported and exported again: the second call fails with `-EBUSY` and
leaves the flag set, but it has called `gpio_free(2)`, so the pin is no longer
held.  After a low sample (value 1) a third export of the still active pin
succeeds, resets the value to 0 and overwrites the device handle while the
first device stays registered.  In the polling variant the second export fails
with `-EBUSY` and the pin stays held by the module. -/
theorem zc_second_export_releases_active_pin :
    (ZC.export_store 4 ZC.State.init (Buf.number 2) 0 (Faults.none 7 0) 3).1 = 3 ∧
    (ZC.export_store 4 ZC.State.init (Buf.number 2) 0 (Faults.none 7 0) 3).2.kernel.requested 2
      = some Label.ac_button ∧
    (ZC.export_store 4
        (ZC.export_store 4 ZC.State.init (Buf.number 2) 0 (Faults.none 7 0) 3).2
        (Buf.number 2) 0 (Faults.none 8 0) 3).1 = -EBUSY ∧
    ((ZC.export_store 4
        (ZC.export_store 4 ZC.State.init (Buf.number 2) 0 (Faults.none 7 0) 3).2
        (Buf.number 2) 0 (Faults.none 8 0) 3).2.button_table 2).flags = true ∧
    (ZC.export_store 4
        (ZC.export_store 4 ZC.State.init (Buf.number 2) 0 (Faults.none 7 0) 3).2
        (Buf.number 2) 0 (Faults.none 8 0) 3).2.kernel.requested 2 = none ∧
    ((ZC.ac_button_zc_handler 4 (ZC.export_store 4
        (ZC.export_store 4 ZC.State.init (Buf.number 2) 0 (Faults.none 7 0) 3).2
        (Buf.number 2) 0 (Faults.none 8 0) 3).2 ZC.all_low).button_table 2)
      = { dev := some 7, zero_count := 0, value := 1, flags := true } ∧
    (ZC.export_store 4 (ZC.ac_button_zc_handler 4 (ZC.export_store 4
        (ZC.export_store 4 ZC.State.init (Buf.number 2) 0 (Faults.none 7 0) 3).2
        (Buf.number 2) 0 (Faults.none 8 0) 3).2 ZC.all_low)
        (Buf.number 2) 0 (Faults.none 8 0) 3).1 = 3 ∧
    ((ZC.export_store 4 (ZC.ac_button_zc_handler 4 (ZC.export_store 4
        (ZC.export_store 4 ZC.State.init (Buf.number 2) 0 (Faults.none 7 0) 3).2
        (Buf.number 2) 0 (Faults.none 8 0) 3).2 ZC.all_low)
        (Buf.number 2) 0 (Faults.none 8 0) 3).2.button_table 2)
      = { dev := some 8, zero_count := 0, value := 0, flags := true } ∧
    (ZC.export_store 4 (ZC.ac_button_zc_handler 4 (ZC.export_store 4
        (ZC.export_store 4 ZC.State.init (Buf.number 2) 0 (Faults.none 7 0) 3).2
        (Buf.number 2) 0 (Faults.none 8 0) 3).2 ZC.all_low)
        (Buf.number 2) 0 (Faults.none 8 0) 3).2.kernel.devices = [8, 7] ∧
    (Poller.export_store 4
        (Poller.export_store 4 Poller.State.init (Buf.number 2) (Faults.none 7 42) 3).2
        (Buf.number 2) (Faults.none 8 42) 3).1 = -EBUSY ∧
    (Poller.export_store 4
        (Poller.export_store 4 Poller.State.init (Buf.number 2) (Faults.none 7 42) 3).2
        (Buf.number 2) (Faults.none 8 42) 3).2.kernel.requested 2 = some Label.ac_button := by
  decide

/-- C9: in both variants, `unexport_store` of a valid pin whose flag is clear
returns `-EINVAL`, which is neither 0 nor the written length, and returns the
state it was given: table, pin and irq holders, devices and the list of kernel
calls are all unchanged. -/
theorem unexport_inactive_fails (ARCH_NR_GPIOS p : Nat) (hp : p < ARCH_NR_GPIOS)
    (zs : ZC.State) (hz : (zs.button_table p).flags = false)
    (ps : Poller.State) (hps : (ps.button_table p).flags = false) (len : Nat) :
    (ZC.unexport_store ARCH_NR_GPIOS zs (Buf.number p) len).1 = -EINVAL ∧
    (ZC.unexport_store ARCH_NR_GPIOS zs (Buf.number p) len).1 ≠ 0 ∧
    (ZC.unexport_store ARCH_NR_GPIOS zs (Buf.number p) len).1 ≠ (len : Int) ∧
    (ZC.unexport_store ARCH_NR_GPIOS zs (Buf.number p) len).2 = zs ∧
    (Poller.unexport_store ARCH_NR_GPIOS ps (Buf.number p) len).1 = -EINVAL ∧
    (Poller.unexport_store ARCH_NR_GPIOS ps (Buf.number p) len).1 ≠ 0 ∧
    (Poller.unexport_store ARCH_NR_GPIOS ps (Buf.number p) len).1 ≠ (len : Int) ∧
    (Poller.unexport_store ARCH_NR_GPIOS ps (Buf.number p) len).2 = ps := by
  have hv := gpio_is_valid_of_lt ARCH_NR_GPIOS p hp
  have hz1 : ZC.unexport_store ARCH_NR_GPIOS zs (Buf.number p) len = (-EINVAL, zs) := by
    simp [ZC.unexport_store, kstrtol, hv, hz, EINVAL]
  have hp1 : Poller.unexport_store ARCH_NR_GPIOS ps (Buf.number p) len = (-EINVAL, ps) := by
    simp [Poller.unexport_store, kstrtol, hv, hps, EINVAL]
  have hne : (-EINVAL : Int) ≠ (len : Int) := by
    have : (0 : Int) ≤ (len : Int) := Int.ofNat_nonneg len
    simp only [EINVAL]; omega
  rw [hz1, hp1]
  have hnz : (-EINVAL : Int) ≠ 0 := by decide
  exact ⟨rfl, hnz, hne, rfl, rfl, hnz, hne, rfl⟩

/-- Witness for C9: pin 2 of the untouched tables. -/
theorem unexport_inactive_fails_witness :
    (ZC.unexport_store 4 ZC.State.init (Buf.number 2) 3).1 = -EINVAL ∧
    (Poller.unexport_store 4 Poller.State.init (Buf.number 2) 3).1 = -EINVAL :=
  have h := unexport_inactive_fails 4 2 (by decide) ZC.State.init rfl Poller.State.init rfl 3
  ⟨h.1, h.2.2.2.2.1⟩

end AcButton

/-! ## Failed exports: what the kernel still holds -/

namespace AcButton

theorem gpio_request_ok (n : Nat) (k : Kernel) (fault : Nat) (gpio : Int)
    (h : (k.gpio_request n fault gpio).1 = 0) :
    gpio_is_valid n gpio = true ∧ fault = 0 ∧ k.requested gpio.toNat = none ∧
    k.gpio_request n fault gpio =
      (0, { k with requested := Function.update k.requested gpio.toNat (some Label.ac_button),
                   calls := k.calls ++ [Call.gpio_request gpio] }) := by
  unfold Kernel.gpio_request at h ⊢
  by_cases hv : gpio_is_valid n gpio = false
  · simp [hv, EINVAL] at h
  · by_cases hf : fault = 0
    · cases hr : k.requested gpio.toNat with
      | none => simp [hv, hf, hr]
      | some l => simp [hv, hf, hr, EBUSY] at h
    · simp [hv, hf] at h

end AcButton

/-! ## Failed exports in the polling variant -/

namespace AcButton

end AcButton

/-! ## Failed exports: the table slot -/

namespace AcButton

theorem gpio_request_fail (n : Nat) (k : Kernel) (fault : Nat) (gpio : Int)
    (h : (k.gpio_request n fault gpio).1 ≠ 0) :
    ∃ st : Int, st < 0 ∧ k.gpio_request n fault gpio = (st, k) := by
  unfold Kernel.gpio_request at h ⊢
  by_cases hv : gpio_is_valid n gpio = false
  · exact ⟨-EINVAL, by decide, by simp [hv]⟩
  · by_cases hf : fault = 0
    · cases hr : k.requested gpio.toNat with
      | none => simp [hv, hf, hr] at h
      | some l => exact ⟨-EBUSY, by decide, by simp [hv, hf, hr]⟩
    · have hpos : (0 : Int) < (fault : Int) := by exact_mod_cast Nat.pos_of_ne_zero hf
      exact ⟨-(fault : Int), by omega, by simp [hv, hf]⟩

theorem zc_failed_export_slot (n p : Nat) (s : ZC.State) (uninit : Int) (f : Faults) (len : Nat)
    (hinact : (s.button_table p).flags = false)
    (hfail : (ZC.export_store n s (Buf.number p) uninit f len).1 < 0) :
    ((ZC.export_store n s (Buf.number p) uninit f len).2.button_table p).flags = false ∧
    (¬ ((s.kernel.gpio_request n f.gpio_request p).1 = 0 ∧ f.gpio_direction_input = 0) →
      (ZC.export_store n s (Buf.number p) uninit f len).2.button_table p = s.button_table p) ∧
    ((s.kernel.gpio_request n f.gpio_request p).1 = 0 ∧ f.gpio_direction_input = 0 →
      ((ZC.export_store n s (Buf.number p) uninit f len).2.button_table p).dev = f.device_create) := by
  have hlen : ¬ ((len : Int) < 0) := by
    have : (0 : Int) ≤ (len : Int) := Int.ofNat_nonneg len
    omega
  by_cases hreq : (s.kernel.gpio_request n f.gpio_request p).1 = 0
  · obtain ⟨hv, hf0, hfree, hk⟩ := gpio_request_ok n s.kernel f.gpio_request p hreq
    by_cases hd : f.gpio_direction_input = 0
    · cases hdev : f.device_create with
      | none =>
        simp [ZC.export_store, kstrtol, hk, Kernel.gpio_direction_input, hd, ZC.button_export,
          Kernel.device_create, hdev, ENODEV, ZC.export_done, hinact]
      | some d =>
        by_cases hg : f.sysfs_create_group = 0
        · simp [ZC.export_store, kstrtol, hk, Kernel.gpio_direction_input, hd, ZC.button_export,
            Kernel.device_create, hdev, ZC.export_done, Kernel.sysfs_create_group, hg, hlen] at hfail
        · have hgpos : 0 < f.sysfs_create_group := Nat.pos_of_ne_zero hg
          simp [ZC.export_store, kstrtol, hk, Kernel.gpio_direction_input, hd, ZC.button_export,
            Kernel.device_create, hdev, ZC.export_done, Kernel.sysfs_create_group, hg, hgpos,
            hinact]
    · have hdpos : 0 < f.gpio_direction_input := Nat.pos_of_ne_zero hd
      simp [ZC.export_store, kstrtol, hk, Kernel.gpio_direction_input, hd, hdpos, ZC.export_done,
        hinact]
  · obtain ⟨st, hst, hk⟩ := gpio_request_fail n s.kernel f.gpio_request p hreq
    have hne : st ≠ 0 := by omega
    simp [ZC.export_store, kstrtol, hk, hst, hne, ZC.export_done, hinact]

theorem poller_failed_export_slot (n p : Nat) (s : Poller.State) (f : Faults) (len : Nat)
    (hinact : (s.button_table p).flags = false)
    (hfail : (Poller.export_store n s (Buf.number p) f len).1 < 0) :
    ((Poller.export_store n s (Buf.number p) f len).2.button_table p).flags = false ∧
    ((Poller.export_store n s (Buf.number p) f len).2.button_table p).irq = (s.button_table p).irq ∧
    (¬ ((s.kernel.gpio_request n f.gpio_request p).1 = 0 ∧ f.gpio_direction_input = 0 ∧
          0 ≤ f.gpio_to_irq ∧ (s.kernel.request_irq f.request_irq f.gpio_to_irq).1 = 0) →
      (Poller.export_store n s (Buf.number p) f len).2.button_table p = s.button_table p) ∧
    ((s.kernel.gpio_request n f.gpio_request p).1 = 0 ∧ f.gpio_direction_input = 0 ∧
          0 ≤ f.gpio_to_irq ∧ (s.kernel.request_irq f.request_irq f.gpio_to_irq).1 = 0 →
      ((Poller.export_store n s (Buf.number p) f len).2.button_table p).dev = f.device_create) := by
  have hlen : ¬ ((len : Int) < 0) := by
    have : (0 : Int) ≤ (len : Int) := Int.ofNat_nonneg len
    omega
  by_cases hreq : (s.kernel.gpio_request n f.gpio_request p).1 = 0
  · obtain ⟨hv, hf0, hfree, hk⟩ := gpio_request_ok n s.kernel f.gpio_request p hreq
    by_cases hd : f.gpio_direction_input = 0
    · by_cases hi : f.gpio_to_irq < 0
      · have hi2 : ¬ (0 ≤ f.gpio_to_irq) := by omega
        simp [Poller.export_store, kstrtol, hk, Kernel.gpio_direction_input, hd, hi, hi2,
          Poller.fail_after_gpio, hinact]
      · have hi2 : 0 ≤ f.gpio_to_irq := by omega
        by_cases hq : f.request_irq = 0
        · cases hact : s.kernel.irq_action f.gpio_to_irq with
          | some l =>
            simp [Poller.export_store, kstrtol, hk, Kernel.gpio_direction_input, hd, hi,
              Kernel.request_irq, hq, hact, EBUSY, Poller.fail_after_gpio, hinact]
          | none =>
            cases hdev : f.device_create with
            | none =>
              simp [Poller.export_store, kstrtol, hk, Kernel.gpio_direction_input, hd, hi,
                Kernel.request_irq, hq, hact, Poller.button_export, Kernel.device_create, hdev,
                ENODEV, Poller.fail_after_irq, Poller.fail_after_gpio, hinact]
            | some d =>
              by_cases hg : f.sysfs_create_group = 0
              · simp [Poller.export_store, kstrtol, hk, Kernel.gpio_direction_input, hd, hi,
                  Kernel.request_irq, hq, hact, Poller.button_export, Kernel.device_create, hdev,
                  Kernel.sysfs_create_group, hg, hlen] at hfail
              · have hgpos : 0 < f.sysfs_create_group := Nat.pos_of_ne_zero hg
                simp [Poller.export_store, kstrtol, hk, Kernel.gpio_direction_input, hd, hi,
                  Kernel.request_irq, hq, hact, Poller.button_export, Kernel.device_create, hdev,
                  Kernel.sysfs_create_group, hg, hgpos,
                  Poller.fail_after_irq, Poller.fail_after_gpio, hinact]
        · have hqpos : 0 < f.request_irq := Nat.pos_of_ne_zero hq
          simp [Poller.export_store, kstrtol, hk, Kernel.gpio_direction_input, hd, hi,
            Kernel.request_irq, hq, hqpos, Poller.fail_after_gpio, hinact]
    · have hdpos : 0 < f.gpio_direction_input := Nat.pos_of_ne_zero hd
      simp [Poller.export_store, kstrtol, hk, Kernel.gpio_direction_input, hd, hdpos,
        Poller.fail_after_gpio, hinact]
  · obtain ⟨st, hst, hk⟩ := gpio_request_fail n s.kernel f.gpio_request p hreq
    have hne : st ≠ 0 := by omega
    simp [Poller.export_store, kstrtol, hk, hst, hne, hinact]

end AcButton

/-! ## Sampling leaves ownership alone (zero-crossing variant) -/

namespace AcButton

namespace ZC

end ZC

end AcButton

/-! ## Sampling leaves ownership alone (polling variant) -/

namespace AcButton

namespace Poller

theorem irq_scan_frame (irq : Int) (s : State) (l : List Nat) :
    (∀ i, ((irq_scan irq s l).button_table i).flags = (s.button_table i).flags ∧
          ((irq_scan irq s l).button_table i).dev = (s.button_table i).dev ∧
          ((irq_scan irq s l).button_table i).irq = (s.button_table i).irq) ∧
    (irq_scan irq s l).kernel = s.kernel := by
  induction l with
  | nil => simp [irq_scan]
  | cons j rest ih =>
    unfold irq_scan
    by_cases hf : (s.button_table j).flags = false
    · simpa [hf] using ih
    · by_cases hne : irq ≠ (s.button_table j).irq
      · simpa [hf, hne] using ih
      · simp only [hf, hne, if_false]
        refine ⟨fun i => ?_, rfl⟩
        by_cases hij : i = j
        · subst hij
          have hf2 : (s.button_table i).flags = true := by simpa using hf
          simp [hf2]
        · simp [Function.update_noteq hij]

end Poller

end AcButton

/-! ## Failed exports: the return value -/

namespace AcButton

end AcButton

/-! ## Export failure and re-export (C6, C7, C10) -/

namespace AcButton

/-- C7, as stated, fails: on the untouched tables an export of pin 2 that fails
in `sysfs_create_group` returns a negative status with the flag clear, but the
slot keeps the handle of the device that was created and unregistered. -/
theorem failed_export_keeps_dev_handle :
    (ZC.State.init.button_table 2).flags = false ∧
    (ZC.export_store 4 ZC.State.init (Buf.number 2) 0 (Faults.group_fails 7 42 12) 3).1 = -12 ∧
    ((ZC.export_store 4 ZC.State.init (Buf.number 2) 0 (Faults.group_fails 7 42 12) 3).2.button_table 2)
      = { dev := some 7, zero_count := 0, value := 0, flags := false } ∧
    (ZC.export_store 4 ZC.State.init (Buf.number 2) 0 (Faults.group_fails 7 42 12) 3).2.kernel.devices
      = [] ∧
    (Poller.State.init.button_table 2).flags = false ∧
    (Poller.export_store 4 Poller.State.init (Buf.number 2) (Faults.group_fails 7 42 12) 3).1 = -12 ∧
    ((Poller.export_store 4 Poller.State.init (Buf.number 2) (Faults.group_fails 7 42 12) 3).2.button_table 2)
      = { dev := some 7, irq := 0, interrupted := 0, value := 0, flags := false } ∧
    (Poller.export_store 4 Poller.State.init (Buf.number 2) (Faults.group_fails 7 42 12) 3).2.kernel.devices
      = [] := by
  decide

/-- C7, amended: in both variants, after a failing export of a pin whose flag is
clear the flag is still clear and the polling variant's `irq` field is as
before.  When the export failed before `button_export` was reached (pin
reservation, direction, irq lookup or irq registration) the slot is exactly as
before the call; when `button_export` was reached, the `dev` field holds what
`device_create` returned: NULL when device creation failed, the handle of the
unregistered device when attribute-group creation failed. -/
theorem failed_export_leaves_flag_clear (ARCH_NR_GPIOS p : Nat) (uninit : Int) (f : Faults)
    (len : Nat) (zs : ZC.State) (hz : (zs.button_table p).flags = false)
    (ps : Poller.State) (hps : (ps.button_table p).flags = false) :
    ((ZC.export_store ARCH_NR_GPIOS zs (Buf.number p) uninit f len).1 < 0 →
      ((ZC.export_store ARCH_NR_GPIOS zs (Buf.number p) uninit f len).2.button_table p).flags = false ∧
      (¬ ((zs.kernel.gpio_request ARCH_NR_GPIOS f.gpio_request p).1 = 0 ∧
            f.gpio_direction_input = 0) →
        (ZC.export_store ARCH_NR_GPIOS zs (Buf.number p) uninit f len).2.button_table p
          = zs.button_table p) ∧
      ((zs.kernel.gpio_request ARCH_NR_GPIOS f.gpio_request p).1 = 0 ∧
            f.gpio_direction_input = 0 →
        ((ZC.export_store ARCH_NR_GPIOS zs (Buf.number p) uninit f len).2.button_table p).dev
          = f.device_create)) ∧
    ((Poller.export_store ARCH_NR_GPIOS ps (Buf.number p) f len).1 < 0 →
      ((Poller.export_store ARCH_NR_GPIOS ps (Buf.number p) f len).2.button_table p).flags = false ∧
      ((Poller.export_store ARCH_NR_GPIOS ps (Buf.number p) f len).2.button_table p).irq
        = (ps.button_table p).irq ∧
      (¬ ((ps.kernel.gpio_request ARCH_NR_GPIOS f.gpio_request p).1 = 0 ∧
            f.gpio_direction_input = 0 ∧ 0 ≤ f.gpio_to_irq ∧
            (ps.kernel.request_irq f.request_irq f.gpio_to_irq).1 = 0) →
        (Poller.export_store ARCH_NR_GPIOS ps (Buf.number p) f len).2.button_table p
          = ps.button_table p) ∧
      ((ps.kernel.gpio_request ARCH_NR_GPIOS f.gpio_request p).1 = 0 ∧
            f.gpio_direction_input = 0 ∧ 0 ≤ f.gpio_to_irq ∧
            (ps.kernel.request_irq f.request_irq f.gpio_to_irq).1 = 0 →
        ((Poller.export_store ARCH_NR_GPIOS ps (Buf.number p) f len).2.button_table p).dev
          = f.device_create)) :=
  ⟨fun hfail => zc_failed_export_slot ARCH_NR_GPIOS p zs uninit f len hz hfail,
   fun hfail => poller_failed_export_slot ARCH_NR_GPIOS p ps f len hps hfail⟩

/-- Witness for amended C7: export of pin 2 on the untouched tables, failing in
`sysfs_create_group`. -/
theorem failed_export_leaves_flag_clear_witness :
    ((ZC.export_store 4 ZC.State.init (Buf.number 2) 0 (Faults.group_fails 7 42 12) 3).2.button_table 2).flags
      = false ∧
    ((Poller.export_store 4 Poller.State.init (Buf.number 2) (Faults.group_fails 7 42 12) 3).2.button_table 2).flags
      = false :=
  have h := failed_export_leaves_flag_clear 4 2 0 (Faults.group_fails 7 42 12) 3
    ZC.State.init rfl Poller.State.init rfl
  ⟨(h.1 (by decide)).1, (h.2 (by decide)).1⟩

end AcButton

/-! ## Inactive slots in the zero-crossing variant -/

namespace AcButton

namespace ZC

theorem zc_handler_inactive (n : Nat) (s : State) (level : Nat → Int) (g : Nat)
    (h : (s.button_table g).flags = false) :
    (ac_button_zc_handler n s level).button_table g = s.button_table g ∧
    (ac_button_zc_handler n s level).kernel.notify_count g = s.kernel.notify_count g := by
  constructor
  · rw [zc_handler_table]; simp [h]
  · rw [zc_handler_notify]; simp [h]

end ZC

end AcButton

/-! ## Inactive slots in the polling variant -/

namespace AcButton

namespace Poller

theorem hrtimer_callback_inactive (n : Nat) (s : State) (g : Nat)
    (h : (s.button_table g).flags = false) :
    (ac_button_hrtimer_callback n s).button_table g = s.button_table g ∧
    (ac_button_hrtimer_callback n s).kernel.notify_count g = s.kernel.notify_count g := by
  constructor
  · rw [hrtimer_callback_table]; simp [h]
  · rw [hrtimer_callback_notify]; simp [h]

theorem irq_scan_inactive (irq : Int) (s : State) (l : List Nat) (g : Nat)
    (h : (s.button_table g).flags = false) :
    (irq_scan irq s l).button_table g = s.button_table g := by
  induction l with
  | nil => rfl
  | cons j rest ih =>
    unfold irq_scan
    by_cases hf : (s.button_table j).flags = false
    · simpa [hf] using ih
    · by_cases hne : irq ≠ (s.button_table j).irq
      · simpa [hf, hne] using ih
      · have hgj : g ≠ j := by
          intro e; rw [e] at h; exact hf h
        simp only [hf, hne, if_false]
        exact Function.update_noteq hgj _ _

theorem irq_handler_inactive (n : Nat) (s : State) (irq : Int) (dev_id_is_class : Bool) (g : Nat)
    (h : (s.button_table g).flags = false) :
    (ac_button_irq_handler n s irq dev_id_is_class).2.button_table g = s.button_table g ∧
    (ac_button_irq_handler n s irq dev_id_is_class).2.kernel = s.kernel := by
  simp only [ac_button_irq_handler]
  split_ifs
  · exact ⟨rfl, rfl⟩
  · exact ⟨irq_scan_inactive irq s _ g h, (irq_scan_frame irq s _).2⟩

end Poller

end AcButton

/-! ## Inactive channels (C11, C12) -/

namespace AcButton

/-- C12: a channel whose flag is clear is skipped by every sampling handler.
The zero-crossing handler, the polling timer tick and the polling interrupt
handler (for any irq number, the slot's own stale `irq` included, and any
dev_id) each leave the whole slot as it was, so in particular its value and its
`zero_count` or `interrupted`, and issue no notification for it. -/
theorem sampling_skips_inactive_channel (ARCH_NR_GPIOS g : Nat)
    (zs : ZC.State) (hz : (zs.button_table g).flags = false) (level : Nat → Int)
    (ps : Poller.State) (hps : (ps.button_table g).flags = false)
    (irq : Int) (dev_id_is_class : Bool) :
    (ZC.ac_button_zc_handler ARCH_NR_GPIOS zs level).button_table g = zs.button_table g ∧
    (ZC.ac_button_zc_handler ARCH_NR_GPIOS zs level).kernel.notify_count g
      = zs.kernel.notify_count g ∧
    (Poller.ac_button_hrtimer_callback ARCH_NR_GPIOS ps).button_table g = ps.button_table g ∧
    (Poller.ac_button_hrtimer_callback ARCH_NR_GPIOS ps).kernel.notify_count g
      = ps.kernel.notify_count g ∧
    (Poller.ac_button_irq_handler ARCH_NR_GPIOS ps irq dev_id_is_class).2.button_table g
      = ps.button_table g ∧
    (Poller.ac_button_irq_handler ARCH_NR_GPIOS ps (ps.button_table g).irq true).2.button_table g
      = ps.button_table g ∧
    (Poller.ac_button_irq_handler ARCH_NR_GPIOS ps irq dev_id_is_class).2.kernel.notify_count g
      = ps.kernel.notify_count g := by
  obtain ⟨a1, a2⟩ := ZC.zc_handler_inactive ARCH_NR_GPIOS zs level g hz
  obtain ⟨b1, b2⟩ := Poller.hrtimer_callback_inactive ARCH_NR_GPIOS ps g hps
  obtain ⟨c1, c2⟩ := Poller.irq_handler_inactive ARCH_NR_GPIOS ps irq dev_id_is_class g hps
  obtain ⟨d1, _⟩ :=
    Poller.irq_handler_inactive ARCH_NR_GPIOS ps (ps.button_table g).irq true g hps
  exact ⟨a1, a2, b1, b2, c1, d1, by rw [c2]⟩

/-- Witness for C12: pin 2 exported (irq 42), pressed and unexported in both
variants, then sampled again; the interrupt delivered is the stale irq 42. -/
theorem sampling_skips_inactive_channel_witness :
    (ZC.ac_button_zc_handler 4
      (ZC.exec 4 ZC.State.init
        [ZC.Op.export_store (Buf.number 2) 0 (Faults.none 7 42) 3,
         ZC.Op.ac_button_zc_handler ZC.all_low,
         ZC.Op.unexport_store (Buf.number 2) 3])
      ZC.all_high).button_table 2
      = { dev := some 7, zero_count := 0, value := 1, flags := false } ∧
    (Poller.ac_button_irq_handler 4
      (Poller.exec 4 Poller.State.init
        [Poller.Op.export_store (Buf.number 2) (Faults.none 7 42) 3,
         Poller.Op.ac_button_irq_handler 42 true,
         Poller.Op.ac_button_hrtimer_callback,
         Poller.Op.unexport_store (Buf.number 2) 3])
      42 true).2.button_table 2
      = { dev := some 7, irq := 42, interrupted := 0, value := 1, flags := false } :=
  have h := sampling_skips_inactive_channel 4 2
    (ZC.exec 4 ZC.State.init
      [ZC.Op.export_store (Buf.number 2) 0 (Faults.none 7 42) 3,
       ZC.Op.ac_button_zc_handler ZC.all_low,
       ZC.Op.unexport_store (Buf.number 2) 3])
    (by decide) ZC.all_high
    (Poller.exec 4 Poller.State.init
      [Poller.Op.export_store (Buf.number 2) (Faults.none 7 42) 3,
       Poller.Op.ac_button_irq_handler 42 true,
       Poller.Op.ac_button_hrtimer_callback,
       Poller.Op.unexport_store (Buf.number 2) 3])
    (by decide) 42 true
  ⟨h.1.trans (by decide), h.2.2.2.2.1.trans (by decide)⟩

end AcButton
